import Mathlib

/-!
Verification development for the SecureDrop `EncryptionManager`
(`securedrop/encryption.py`): a key-lifecycle and encryption orchestration
layer in front of a GPG engine, with a Redis cache mapping
identity → key fingerprint and fingerprint → exported public key.

The GPG engine and the Redis store are external collaborators; they are
modelled here as explicit state (a keyring of keys, two association-list
hash tables) with symbolic cryptographic payloads.  Every operation of the
manager is translated from the Python source, including its exact control
flow: cache truthiness checks, the substring-plus-regex key scan, the
unchecked engine delete, and the cache-then-engine public-key lookup.
-/

namespace SecureDropEnc

/-- Errors raised by the manager, mirroring `GpgKeyNotFoundError`,
`GpgEncryptError` and `GpgDecryptError` in the source; `genFailed` stands
for an engine exception propagating out of `gen_key`. -/
inductive GpgError where
  | keyNotFound
  | encryptFailed (stderr : String)
  | decryptFailed (stderr : String)
  | genFailed (msg : String)
deriving Repr, DecidableEq

/-- A key as held by the GPG engine: its fingerprint, its user IDs, the
exported public-key blob, and (for keys whose secret part is present) the
protecting passphrase. -/
structure GpgKey where
  fingerprint : String
  uids : List String
  publicKey : String
  secret : Option String
deriving Repr, DecidableEq

/-- State visible to the manager: the engine keyring plus the two Redis
hash tables `sd/crypto-util/fingerprints` (identity → fingerprint) and
`sd/crypto-util/keys` (fingerprint → public key), as association lists. -/
structure EncState where
  keyring : List GpgKey
  redisFingerprints : List (String × String)
  redisKeys : List (String × String)
deriving Repr, DecidableEq

/-- Symbolic ciphertext produced by the engine: it records the recipient
fingerprints passed to the engine invocation and the protected payload. -/
structure Ciphertext where
  recipients : List String
  data : String
deriving Repr, DecidableEq

/-- Redis HGET on a hash modelled as an association list: the value at a
field, or `none` when the field is absent. -/
def hget (h : List (String × String)) (f : String) : Option String :=
  (h.find? (fun p => p.1 = f)).map (fun p => p.2)

/-- Redis HSET: set a field to a value, replacing any previous binding. -/
def hset (h : List (String × String)) (f v : String) : List (String × String) :=
  (f, v) :: h.filter (fun p => p.1 ≠ f)

/-- Redis HDEL: delete a field. -/
def hdel (h : List (String × String)) (f : String) : List (String × String) :=
  h.filter (fun p => p.1 ≠ f)

/-- Python truthiness of an optional string (`if value:`): true exactly for
a present, non-empty string. -/
def truthy : Option String → Bool
  | some s => s ≠ ""
  | none => false

/-- Character class `[-A-Za-z0-9+/=_]` of `SOURCE_KEY_UID_RE`. -/
def isUidBodyChar (c : Char) : Bool :=
  c = '-' || c.isAlpha || c.isDigit || c = '+' || c = '/' || c = '=' || c = '_'

/-- After at least one class character has been read: keep consuming class
characters until a closing angle bracket (which is outside the class, so
the greedy `+` needs no backtracking); `re.match` only anchors the start,
so anything may follow the bracket. -/
def uidBodyTail : List Char → Bool
  | [] => false
  | c :: rest => if c = '>' then true else isUidBodyChar c && uidBodyTail rest

/-- Match `[-A-Za-z0-9+/=_]+>` at the head of the character list. -/
def uidBodyMatch : List Char → Bool
  | [] => false
  | c :: rest => isUidBodyChar c && uidBodyTail rest

/-- Strip an expected leading character sequence, returning the remainder
or `none` when the sequence is not at the head. -/
def dropPfx : List Char → List Char → Option (List Char)
  | [], cs => some cs
  | _ :: _, [] => none
  | p :: ps, c :: cs => if p = c then dropPfx ps cs else none

/-- Embedding of `re.match` for
`SOURCE_KEY_UID_RE = (Source|Autogenerated) Key <[-A-Za-z0-9+/=_]+>`:
the alternation gives the two possible literal heads, then the bracketed
body must follow; the match is anchored at the start only. -/
def source_key_uid_match (uid : String) : Bool :=
  match dropPfx ("Source Key <".data) uid.data with
  | some rest => uidBodyMatch rest
  | none =>
    match dropPfx ("Autogenerated Key <".data) uid.data with
    | some rest => uidBodyMatch rest
    | none => false

/-- Python substring containment `needle in hay` on character lists. -/
def containsSeq (needle : List Char) : List Char → Bool
  | [] => needle.isEmpty
  | c :: rest => (dropPfx needle (c :: rest)).isSome || containsSeq needle rest

/-- Condition of the inner loop of `_get_source_key_details`:
`source_filesystem_id in uid and SOURCE_KEY_UID_RE.match(uid)`. -/
def uid_matches_source (filesystem_id uid : String) : Bool :=
  containsSeq filesystem_id.data uid.data && source_key_uid_match uid

/-- A key is selected by the scan when any of its user IDs satisfies the
substring-plus-pattern condition. -/
def keyMatchesSource (filesystem_id : String) (k : GpgKey) : Bool :=
  k.uids.any (uid_matches_source filesystem_id)

/-- Embedding of `_get_source_key_details`: linear scan over
`self._gpg.list_keys()`, returning the first key with a matching user ID,
else raising `GpgKeyNotFoundError`. -/
def get_source_key_details (filesystem_id : String) (kr : List GpgKey) :
    Except GpgError GpgKey :=
  match kr.find? (keyMatchesSource filesystem_id) with
  | some k => Except.ok k
  | none => Except.error GpgError.keyNotFound

/-- Engine `export_keys(fingerprint)`: the stored public-key blob of the
key with that fingerprint, or the empty (falsy) string when absent. -/
def export_keys (kr : List GpgKey) (fpr : String) : String :=
  match kr.find? (fun k => k.fingerprint = fpr) with
  | some k => k.publicKey
  | none => ""

/-- Engine `delete_keys(fingerprint, secret=True, subkeys=True)`: removes
the key pair with that fingerprint from the keyring.  The Python call also
produces a status result, which `delete_source_key_pair` never inspects,
so only the keyring effect is modelled. -/
def delete_keys (kr : List GpgKey) (fpr : String) : List GpgKey :=
  kr.filter (fun k => k.fingerprint ≠ fpr)

/-- Engine `encrypt` with `always_trust=True`: succeeds when every
recipient fingerprint resolves to a key in the keyring, producing a
symbolic ciphertext that records the recipient list as passed; otherwise
reports a non-ok result, raised as `GpgEncryptError` by the caller. -/
def gpg_encrypt (kr : List GpgKey) (recipients : List String) (pt : String) :
    Except GpgError Ciphertext :=
  if recipients.all (fun f => (kr.find? (fun k => k.fingerprint = f)).isSome) then
    Except.ok { recipients := recipients, data := pt }
  else
    Except.error (GpgError.encryptFailed "no valid recipients")

/-- Engine `decrypt_file(ciphertext, passphrase)`: succeeds when some key
in the keyring is among the ciphertext's recipients and holds a secret
part protected by the supplied passphrase, yielding the payload. -/
def gpg_decrypt_file (kr : List GpgKey) (ct : Ciphertext) (passphrase : String) :
    Except GpgError String :=
  if kr.any (fun k => ct.recipients.contains k.fingerprint && k.secret = some passphrase) then
    Except.ok ct.data
  else
    Except.error (GpgError.decryptFailed "decryption failed")

/-- Python `fpr.replace(" ", "")` in `_encrypt`: remove every space. -/
def removeSpaces (s : String) : String :=
  String.mk (s.data.filter (fun c => c ≠ ' '))

/-- Engine `gen_key`: its outcome is external (entropy, subprocess), so it
is a parameter — on success the engine yields a fresh fingerprint and the
keyring gains a key whose user ID is composed by the batch input of
`generate_source_key_pair` (`name_real="Source Key"`,
`name_email=filesystem_id`) and whose secret part is protected by the
source passphrase; on failure the engine error propagates. -/
def gen_key (genResult : Except GpgError String) (gpg_secret filesystem_id : String)
    (kr : List GpgKey) : Except GpgError (GpgKey × List GpgKey) :=
  match genResult with
  | Except.error e => Except.error e
  | Except.ok fpr =>
    let key : GpgKey :=
      { fingerprint := fpr
        uids := ["Source Key <" ++ filesystem_id ++ ">"]
        publicKey := "PUBKEY-" ++ fpr
        secret := some gpg_secret }
    Except.ok (key, key :: kr)

/-- Embedding of `_save_key_fingerprint_to_redis`. -/
def save_key_fingerprint_to_redis (s : EncState) (filesystem_id fpr : String) : EncState :=
  { s with redisFingerprints := hset s.redisFingerprints filesystem_id fpr }

/-- Embedding of `generate_source_key_pair`: call the engine generation,
then store the new key's fingerprint (`str(new_key)`) in Redis.  An engine
failure propagates before the Redis write is reached.  The produced
fingerprint is returned alongside the state for observation. -/
def generate_source_key_pair (genResult : Except GpgError String)
    (gpg_secret filesystem_id : String) (s : EncState) :
    EncState × Except GpgError String :=
  match gen_key genResult gpg_secret filesystem_id s.keyring with
  | Except.error e => (s, Except.error e)
  | Except.ok (key, kr) =>
    (save_key_fingerprint_to_redis { s with keyring := kr } filesystem_id key.fingerprint,
     Except.ok key.fingerprint)

/-- Fallback path of `get_source_key_fingerprint`: scan the engine,
write the found fingerprint through to Redis, and return it. -/
def get_source_key_fingerprint_scan (filesystem_id : String) (s : EncState) :
    EncState × Except GpgError String :=
  match get_source_key_details filesystem_id s.keyring with
  | Except.error e => (s, Except.error e)
  | Except.ok key =>
    (save_key_fingerprint_to_redis s filesystem_id key.fingerprint, Except.ok key.fingerprint)

/-- Embedding of `get_source_key_fingerprint`, instrumented with a flag
recording whether the engine-scan fallback was executed: first consult
Redis (`if source_key_fingerprint:` — found and non-empty), else fall back
to the engine scan. -/
def get_source_key_fingerprint_core (filesystem_id : String) (s : EncState) :
    (EncState × Except GpgError String) × Bool :=
  match hget s.redisFingerprints filesystem_id with
  | some fpr =>
    if fpr = "" then (get_source_key_fingerprint_scan filesystem_id s, true)
    else ((s, Except.ok fpr), false)
  | none => (get_source_key_fingerprint_scan filesystem_id s, true)

/-- The uninstrumented `get_source_key_fingerprint`. -/
def get_source_key_fingerprint (filesystem_id : String) (s : EncState) :
    EncState × Except GpgError String :=
  (get_source_key_fingerprint_core filesystem_id s).1

/-- Engine-export path of `_get_public_key`: export from GPG, raise
`GpgKeyNotFoundError` on a falsy result, else write through to Redis. -/
def get_public_key_from_gpg (fpr : String) (s : EncState) :
    EncState × Except GpgError String :=
  let pk := export_keys s.keyring fpr
  if pk = "" then (s, Except.error GpgError.keyNotFound)
  else ({ s with redisKeys := hset s.redisKeys fpr pk }, Except.ok pk)

/-- Embedding of `_get_public_key`: first try the Redis
fingerprint → public-key table (`if public_key:`), then the engine. -/
def get_public_key (fpr : String) (s : EncState) : EncState × Except GpgError String :=
  match hget s.redisKeys fpr with
  | some pk => if pk = "" then get_public_key_from_gpg fpr s else (s, Except.ok pk)
  | none => get_public_key_from_gpg fpr s

/-- Embedding of `get_journalist_public_key`. -/
def get_journalist_public_key (journalist_key_fingerprint : String) (s : EncState) :
    EncState × Except GpgError String :=
  get_public_key journalist_key_fingerprint s

/-- Embedding of `get_source_public_key`: resolve the source fingerprint,
then look up the public key. -/
def get_source_public_key (filesystem_id : String) (s : EncState) :
    EncState × Except GpgError String :=
  match get_source_key_fingerprint filesystem_id s with
  | (s1, Except.error e) => (s1, Except.error e)
  | (s1, Except.ok fpr) => get_public_key fpr s1

/-- Embedding of `delete_source_key_pair`: resolve the fingerprint
(cache-or-engine), ask the engine to delete the key pair — the engine's
status result is discarded, exactly as in the source — then HDEL both
Redis entries. -/
def delete_source_key_pair (filesystem_id : String) (s : EncState) :
    EncState × Except GpgError Unit :=
  match get_source_key_fingerprint filesystem_id s with
  | (s1, Except.error e) => (s1, Except.error e)
  | (s1, Except.ok fpr) =>
    ({ keyring := delete_keys s1.keyring fpr
       redisFingerprints := hdel s1.redisFingerprints filesystem_id
       redisKeys := hdel s1.redisKeys fpr },
     Except.ok ())

/-- Embedding of `_encrypt`: sanitize the fingerprints (strip spaces),
then invoke the engine encrypt with the sanitized recipient list.  Redis
is never touched. -/
def encrypt_low (using_keys_with_fingerprints : List String) (plaintext : String)
    (kr : List GpgKey) : Except GpgError Ciphertext :=
  gpg_encrypt kr (using_keys_with_fingerprints.map removeSpaces) plaintext

/-- Embedding of `encrypt_journalist_reply`: resolve the source
fingerprint, then encrypt for the ordered recipient pair
`[source_key_fingerprint, journalist_key_fingerprint]`. -/
def encrypt_journalist_reply (journalist_key_fingerprint filesystem_id reply : String)
    (s : EncState) : EncState × Except GpgError Ciphertext :=
  match get_source_key_fingerprint filesystem_id s with
  | (s1, Except.error e) => (s1, Except.error e)
  | (s1, Except.ok fpr) =>
    (s1, encrypt_low [fpr, journalist_key_fingerprint] reply s1.keyring)

/-- Embedding of `decrypt_journalist_reply`: feed the ciphertext and the
source passphrase to the engine decrypt; raise `GpgDecryptError` on a
non-ok result, else return the decoded payload.  No Redis access and no
key mutation occur. -/
def decrypt_journalist_reply (gpg_secret : String) (ct : Ciphertext) (s : EncState) :
    EncState × Except GpgError String :=
  (s, gpg_decrypt_file s.keyring ct gpg_secret)

/-- Outcome of constructing an `EncryptionManager`. -/
inductive InitOutcome where
  | success (s : EncState)
  | environmentFailure (journalist_key_fingerprint : String)
  | gpgFailure (e : GpgError)
deriving Repr, DecidableEq

/-- Embedding of `EncryptionManager.__init__`'s journalist-key check: call
`get_journalist_public_key`, turn `GpgKeyNotFoundError` into the fatal
`EnvironmentError`, and otherwise complete construction with the possibly
updated cache state. -/
def encryption_manager_init (journalist_key_fingerprint : String) (s : EncState) :
    InitOutcome :=
  match get_journalist_public_key journalist_key_fingerprint s with
  | (s1, Except.ok _) => InitOutcome.success s1
  | (_, Except.error GpgError.keyNotFound) =>
    InitOutcome.environmentFailure journalist_key_fingerprint
  | (_, Except.error e) => InitOutcome.gpgFailure e

/-- Fixture: the journalist key as imported in the engine keyring
(public part only). -/
def journalistKey : GpgKey :=
  { fingerprint := "JF", uids := ["Journalist Key <journalist>"],
    publicKey := "PUBKEY-JF", secret := none }

/-- Fixture: a keyring holding only the journalist key, empty caches. -/
def baseState : EncState :=
  { keyring := [journalistKey], redisFingerprints := [], redisKeys := [] }

theorem hget_hset_self (h : List (String × String)) (f v : String) :
    hget (hset h f v) f = some v := by
  simp [hget, hset, List.find?]

theorem hget_hdel_self (h : List (String × String)) (f : String) :
    hget (hdel h f) f = none := by
  induction h with
  | nil => rfl
  | cons p t ih =>
    by_cases hp : p.1 = f
    · simp only [hget, hdel, List.filter, hp] at ih ⊢
      simp [ih]
    · simp only [hget, hdel, List.filter, List.find?, hp] at ih ⊢
      simp [hp, ih]

theorem find?_isSome_cons (p : α → Bool) (a : α) (l : List α)
    (h : (l.find? p).isSome) : ((a :: l).find? p).isSome := by
  rw [List.find?_cons]
  cases hpa : p a <;> simp [h]

theorem removeSpaces_idem (s : String) :
    removeSpaces (removeSpaces s) = removeSpaces s := by
  simp [removeSpaces, List.filter_filter]

/-- Shared helper: a successful generation leaves the cache serving the new
fingerprint, with the engine-scan fallback not taken. -/
theorem lookup_core_after_generate (s : EncState)
    (gpg_secret filesystem_id fpr : String) (hfpr : fpr ≠ "") :
    get_source_key_fingerprint_core filesystem_id
        (generate_source_key_pair (Except.ok fpr) gpg_secret filesystem_id s).1
      = (((generate_source_key_pair (Except.ok fpr) gpg_secret filesystem_id s).1,
          Except.ok fpr), false) := by
  simp [generate_source_key_pair, gen_key, save_key_fingerprint_to_redis,
    get_source_key_fingerprint_core, hget_hset_self, hfpr]

/-- C3: when the engine key generation fails, `generate_source_key_pair`
propagates the engine error to the caller and leaves the state — in
particular the identity → fingerprint cache — unchanged, because the
Redis write is sequenced after the engine call. -/
theorem generate_propagates_engine_error (e : GpgError)
    (gpg_secret filesystem_id : String) (s : EncState) :
    generate_source_key_pair (Except.error e) gpg_secret filesystem_id s
      = (s, Except.error e) := rfl

/-- C4: after a successful `generate_source_key_pair` producing
fingerprint `fpr`, `get_source_key_fingerprint` returns `fpr` served from
the identity → fingerprint cache, with the engine-scan fallback not
executed (instrumentation flag `false`) and the state unchanged. -/
theorem generate_populates_fingerprint_cache (s : EncState)
    (gpg_secret filesystem_id fpr : String) (hfpr : fpr ≠ "") :
    get_source_key_fingerprint_core filesystem_id
        (generate_source_key_pair (Except.ok fpr) gpg_secret filesystem_id s).1
      = (((generate_source_key_pair (Except.ok fpr) gpg_secret filesystem_id s).1,
          Except.ok fpr), false) :=
  lookup_core_after_generate s gpg_secret filesystem_id fpr hfpr

theorem generate_populates_fingerprint_cache_witness :
    get_source_key_fingerprint_core "id1"
        (generate_source_key_pair (Except.ok "F1") "pw" "id1"
          { keyring := [], redisFingerprints := [], redisKeys := [] }).1
      = (((generate_source_key_pair (Except.ok "F1") "pw" "id1"
          { keyring := [], redisFingerprints := [], redisKeys := [] }).1,
          Except.ok "F1"), false) :=
  generate_populates_fingerprint_cache
    { keyring := [], redisFingerprints := [], redisKeys := [] }
    "pw" "id1" "F1" (by decide)

/-- C9: `_encrypt` strips every space from the provided fingerprints
before invoking the engine, so encrypting with spaced fingerprints (such
as "AAAA BBBB CCCC") behaves identically to encrypting with the
corresponding compact forms (such as "AAAABBBBCCCC"): the engine receives
the same recipient strings either way. -/
theorem encrypt_sanitizes_fingerprints (fprs : List String) (pt : String)
    (kr : List GpgKey) :
    encrypt_low fprs pt kr = encrypt_low (fprs.map removeSpaces) pt kr := by
  simp only [encrypt_low, List.map_map]
  congr 1
  induction fprs with
  | nil => rfl
  | cons a t ih => simp [removeSpaces_idem, ih]

/-- C10: `decrypt_journalist_reply` leaves the whole state — engine
keyring and both cache tables — unchanged whether it succeeds or fails,
and its result does not depend on either cache table (no cache reads):
replacing both Redis tables arbitrarily leaves the outcome identical. -/
theorem decrypt_reply_leaves_state_unchanged (gpg_secret : String)
    (ct : Ciphertext) (s : EncState) :
    (decrypt_journalist_reply gpg_secret ct s).1 = s ∧
    ∀ rf rk,
      (decrypt_journalist_reply gpg_secret ct
        { keyring := s.keyring, redisFingerprints := rf, redisKeys := rk }).2
        = (decrypt_journalist_reply gpg_secret ct s).2 :=
  ⟨rfl, fun _ _ => rfl⟩

/-- C7: whenever the source fingerprint resolves, `encrypt_journalist_reply`
invokes the engine encrypt with the recipient set being exactly the ordered
two-element list [source fingerprint, journalist fingerprint] (each in the
canonical space-free form the sanitization step preserves). -/
theorem reply_recipients_source_then_journalist
    (journalist_key_fingerprint filesystem_id reply : String) (s s1 : EncState)
    (fpr : String)
    (h : get_source_key_fingerprint filesystem_id s = (s1, Except.ok fpr))
    (hf : removeSpaces fpr = fpr)
    (hj : removeSpaces journalist_key_fingerprint = journalist_key_fingerprint) :
    encrypt_journalist_reply journalist_key_fingerprint filesystem_id reply s
      = (s1, gpg_encrypt s1.keyring [fpr, journalist_key_fingerprint] reply) := by
  simp [encrypt_journalist_reply, h, encrypt_low, hf, hj]

theorem reply_recipients_source_then_journalist_witness :
    encrypt_journalist_reply "JF" "id1" "msg"
        { keyring := [], redisFingerprints := [("id1", "F1")], redisKeys := [] }
      = ({ keyring := [], redisFingerprints := [("id1", "F1")], redisKeys := [] },
         gpg_encrypt [] ["F1", "JF"] "msg") :=
  reply_recipients_source_then_journalist "JF" "id1" "msg"
    { keyring := [], redisFingerprints := [("id1", "F1")], redisKeys := [] }
    { keyring := [], redisFingerprints := [("id1", "F1")], redisKeys := [] }
    "F1" (by rfl) (by rfl) (by rfl)

/-- C5: for an identity whose key pair has just been generated (with a
canonical non-empty fingerprint) and a journalist key present in the
keyring, decrypting the ciphertext produced by `encrypt_journalist_reply`
with that identity's passphrase returns exactly the original plaintext. -/
theorem reply_roundtrip (s : EncState)
    (filesystem_id gpg_secret reply journalist_key_fingerprint fpr : String)
    (hfpr : fpr ≠ "") (hf : removeSpaces fpr = fpr)
    (hj : removeSpaces journalist_key_fingerprint = journalist_key_fingerprint)
    (hjkey : ∃ k ∈ s.keyring, k.fingerprint = journalist_key_fingerprint) :
    ∃ ct,
      encrypt_journalist_reply journalist_key_fingerprint filesystem_id reply
          (generate_source_key_pair (Except.ok fpr) gpg_secret filesystem_id s).1
        = ((generate_source_key_pair (Except.ok fpr) gpg_secret filesystem_id s).1,
           Except.ok ct) ∧
      decrypt_journalist_reply gpg_secret ct
          (generate_source_key_pair (Except.ok fpr) gpg_secret filesystem_id s).1
        = ((generate_source_key_pair (Except.ok fpr) gpg_secret filesystem_id s).1,
           Except.ok reply) := by
  obtain ⟨k, hk, hkf⟩ := hjkey
  have hresolve :
      get_source_key_fingerprint filesystem_id
          (generate_source_key_pair (Except.ok fpr) gpg_secret filesystem_id s).1
        = ((generate_source_key_pair (Except.ok fpr) gpg_secret filesystem_id s).1,
           Except.ok fpr) := by
    have h0 := lookup_core_after_generate s gpg_secret filesystem_id fpr hfpr
    simp [get_source_key_fingerprint, h0]
  refine ⟨{ recipients := [fpr, journalist_key_fingerprint], data := reply }, ?_, ?_⟩
  · unfold encrypt_journalist_reply
    rw [hresolve]
    dsimp only
    congr 1
    have hs1 : (generate_source_key_pair (Except.ok fpr) gpg_secret filesystem_id s).1.keyring
        = { fingerprint := fpr, uids := ["Source Key <" ++ filesystem_id ++ ">"],
            publicKey := "PUBKEY-" ++ fpr, secret := some gpg_secret } :: s.keyring := rfl
    rw [hs1]
    unfold encrypt_low gpg_encrypt
    rw [List.map_cons, List.map_cons, List.map_nil, hf, hj]
    rw [if_pos]
    simp only [List.all_cons, List.all_nil, Bool.and_true, Bool.and_eq_true]
    refine ⟨?_, ?_⟩
    · simp [List.find?_cons]
    · rw [List.find?_isSome]
      exact ⟨k, List.mem_cons_of_mem _ hk, by simp [hkf]⟩
  · have hs1 : (generate_source_key_pair (Except.ok fpr) gpg_secret filesystem_id s).1.keyring
        = { fingerprint := fpr, uids := ["Source Key <" ++ filesystem_id ++ ">"],
            publicKey := "PUBKEY-" ++ fpr, secret := some gpg_secret } :: s.keyring := rfl
    unfold decrypt_journalist_reply
    congr 1
    rw [hs1]
    unfold gpg_decrypt_file
    rw [if_pos]
    simp [List.any_cons]

theorem reply_roundtrip_witness :
    ∃ ct,
      encrypt_journalist_reply "JF" "id1" "hello"
          (generate_source_key_pair (Except.ok "AB12") "pw" "id1" baseState).1
        = ((generate_source_key_pair (Except.ok "AB12") "pw" "id1" baseState).1,
           Except.ok ct) ∧
      decrypt_journalist_reply "pw" ct
          (generate_source_key_pair (Except.ok "AB12") "pw" "id1" baseState).1
        = ((generate_source_key_pair (Except.ok "AB12") "pw" "id1" baseState).1,
           Except.ok "hello") :=
  reply_roundtrip baseState "id1" "pw" "hello" "JF" "AB12"
    (by decide) (by rfl) (by rfl)
    ⟨journalistKey, by simp [baseState], rfl⟩

/-- C1 counterexample: the fingerprint of "id1" resolves from the cache,
the keyring is empty so the engine delete cannot succeed, yet
`delete_source_key_pair` returns successfully (no `KeyNotFoundError`) and
both Redis entries are removed — the source never inspects the engine's
delete status, so there is no fail-fast and no untouched cache. -/
theorem delete_engine_failure_counterexample :
    delete_source_key_pair "id1"
        { keyring := [], redisFingerprints := [("id1", "F1")],
          redisKeys := [("F1", "PK1")] }
      = ({ keyring := [], redisFingerprints := [], redisKeys := [] },
         Except.ok ()) := rfl

/-- C1 amended: when the identity's fingerprint resolves but the key pair
is absent from the keyring (so the engine delete cannot succeed),
`delete_source_key_pair` still returns successfully, leaves the keyring
unchanged, and removes both Redis entries; the engine's delete outcome is
never inspected. -/
theorem delete_removes_cache_despite_engine_failure
    (filesystem_id : String) (s s1 : EncState) (fpr : String)
    (h : get_source_key_fingerprint filesystem_id s = (s1, Except.ok fpr))
    (habsent : ∀ k ∈ s1.keyring, k.fingerprint ≠ fpr) :
    (delete_source_key_pair filesystem_id s).2 = Except.ok () ∧
    (delete_source_key_pair filesystem_id s).1.keyring = s1.keyring ∧
    hget (delete_source_key_pair filesystem_id s).1.redisFingerprints filesystem_id
      = none ∧
    hget (delete_source_key_pair filesystem_id s).1.redisKeys fpr = none := by
  have hdelete : delete_source_key_pair filesystem_id s
      = ({ keyring := delete_keys s1.keyring fpr
           redisFingerprints := hdel s1.redisFingerprints filesystem_id
           redisKeys := hdel s1.redisKeys fpr }, Except.ok ()) := by
    unfold delete_source_key_pair
    rw [h]
  rw [hdelete]
  refine ⟨rfl, ?_, hget_hdel_self _ _, hget_hdel_self _ _⟩
  exact List.filter_eq_self.mpr (fun k hk => by simp [habsent k hk])

theorem delete_removes_cache_despite_engine_failure_witness :
    (delete_source_key_pair "id1"
        { keyring := [], redisFingerprints := [("id1", "F1")],
          redisKeys := [("F1", "PK1")] }).2 = Except.ok () ∧
    (delete_source_key_pair "id1"
        { keyring := [], redisFingerprints := [("id1", "F1")],
          redisKeys := [("F1", "PK1")] }).1.keyring = [] ∧
    hget (delete_source_key_pair "id1"
        { keyring := [], redisFingerprints := [("id1", "F1")],
          redisKeys := [("F1", "PK1")] }).1.redisFingerprints "id1" = none ∧
    hget (delete_source_key_pair "id1"
        { keyring := [], redisFingerprints := [("id1", "F1")],
          redisKeys := [("F1", "PK1")] }).1.redisKeys "F1" = none :=
  delete_removes_cache_despite_engine_failure "id1"
    { keyring := [], redisFingerprints := [("id1", "F1")], redisKeys := [("F1", "PK1")] }
    { keyring := [], redisFingerprints := [("id1", "F1")], redisKeys := [("F1", "PK1")] }
    "F1" (by rfl) (by simp)

/-- C2: after generating a key pair for an identity (non-empty fingerprint,
and no other key in the keyring matching the identity's scan condition),
`delete_source_key_pair` returns successfully, and afterwards both
`get_source_key_fingerprint` and `get_source_public_key` fail with
`KeyNotFoundError`: no stale cache entry or engine key remains reachable
through either lookup. -/
theorem delete_invalidates_both_lookups (s : EncState)
    (gpg_secret filesystem_id fpr : String) (hfpr : fpr ≠ "")
    (hnomatch : ∀ k ∈ s.keyring, keyMatchesSource filesystem_id k = false) :
    (delete_source_key_pair filesystem_id
        (generate_source_key_pair (Except.ok fpr) gpg_secret filesystem_id s).1).2
      = Except.ok () ∧
    (get_source_key_fingerprint filesystem_id
        (delete_source_key_pair filesystem_id
          (generate_source_key_pair (Except.ok fpr) gpg_secret filesystem_id s).1).1).2
      = Except.error GpgError.keyNotFound ∧
    (get_source_public_key filesystem_id
        (delete_source_key_pair filesystem_id
          (generate_source_key_pair (Except.ok fpr) gpg_secret filesystem_id s).1).1).2
      = Except.error GpgError.keyNotFound := by
  have hresolve :
      get_source_key_fingerprint filesystem_id
          (generate_source_key_pair (Except.ok fpr) gpg_secret filesystem_id s).1
        = ((generate_source_key_pair (Except.ok fpr) gpg_secret filesystem_id s).1,
           Except.ok fpr) := by
    have h0 := lookup_core_after_generate s gpg_secret filesystem_id fpr hfpr
    simp [get_source_key_fingerprint, h0]
  have hdelete : delete_source_key_pair filesystem_id
      (generate_source_key_pair (Except.ok fpr) gpg_secret filesystem_id s).1
      = ({ keyring := delete_keys
            (generate_source_key_pair (Except.ok fpr) gpg_secret filesystem_id s).1.keyring
            fpr
           redisFingerprints := hdel
            (generate_source_key_pair (Except.ok fpr) gpg_secret filesystem_id s).1.redisFingerprints
            filesystem_id
           redisKeys := hdel
            (generate_source_key_pair (Except.ok fpr) gpg_secret filesystem_id s).1.redisKeys
            fpr }, Except.ok ()) := by
    unfold delete_source_key_pair
    rw [hresolve]
  have hcachegone :
      hget (hdel
        (generate_source_key_pair (Except.ok fpr) gpg_secret filesystem_id s).1.redisFingerprints
        filesystem_id) filesystem_id = none := hget_hdel_self _ _
  have hscangone :
      (delete_keys
        (generate_source_key_pair (Except.ok fpr) gpg_secret filesystem_id s).1.keyring
        fpr).find? (keyMatchesSource filesystem_id) = none := by
    apply List.find?_eq_none.mpr
    intro x hx
    have hx2 := List.mem_filter.mp hx
    rcases List.mem_cons.mp hx2.1 with h1 | h2
    · have := hx2.2
      rw [h1] at this
      simp at this
    · simp [hnomatch x h2]
  have hlookup :
      get_source_key_fingerprint filesystem_id
          (delete_source_key_pair filesystem_id
            (generate_source_key_pair (Except.ok fpr) gpg_secret filesystem_id s).1).1
        = ((delete_source_key_pair filesystem_id
            (generate_source_key_pair (Except.ok fpr) gpg_secret filesystem_id s).1).1,
           Except.error GpgError.keyNotFound) := by
    rw [hdelete]
    unfold get_source_key_fingerprint get_source_key_fingerprint_core
    rw [hcachegone]
    unfold get_source_key_fingerprint_scan get_source_key_details
    rw [hscangone]
  refine ⟨by rw [hdelete], by rw [hlookup], ?_⟩
  unfold get_source_public_key
  rw [hlookup]

theorem delete_invalidates_both_lookups_witness :
    (delete_source_key_pair "id1"
        (generate_source_key_pair (Except.ok "F1") "pw" "id1" baseState).1).2
      = Except.ok () ∧
    (get_source_key_fingerprint "id1"
        (delete_source_key_pair "id1"
          (generate_source_key_pair (Except.ok "F1") "pw" "id1" baseState).1).1).2
      = Except.error GpgError.keyNotFound ∧
    (get_source_public_key "id1"
        (delete_source_key_pair "id1"
          (generate_source_key_pair (Except.ok "F1") "pw" "id1" baseState).1).1).2
      = Except.error GpgError.keyNotFound :=
  delete_invalidates_both_lookups baseState "pw" "id1" "F1" (by decide) (by decide)

/-- Fixture for the scan claims: a key belonging to identity "XABCY",
whose identifier contains "ABC" as a proper substring. -/
def strayKey : GpgKey :=
  { fingerprint := "F1", uids := ["Source Key <XABCY>"],
    publicKey := "PK1", secret := none }

/-- C6 counterexample: the scan queried for identity "ABC" returns the key
of the different identity "XABCY", because the source only requires the
queried identity to occur as a substring of a user ID that matches the
generic pattern — it does not require the pattern instantiated with the
exact identity, and it does not fail with `KeyNotFoundError` here. -/
theorem scan_substring_counterexample :
    get_source_key_details "ABC" [strayKey] = Except.ok strayKey ∧
    strayKey.uids = ["Source Key <XABCY>"] := ⟨rfl, rfl⟩

/-- C6 amended: the engine-scan fallback returns a key exactly when some
key has a user ID that contains the queried identity as a substring and
matches the generic pattern "(Source|Autogenerated) Key <...>", and fails
with `KeyNotFoundError` exactly when no key has such a user ID; a key of a
different identity containing the queried identity as a substring is
therefore returned, not rejected. -/
theorem scan_matches_by_substring_and_pattern (filesystem_id : String)
    (kr : List GpgKey) :
    (∀ k, get_source_key_details filesystem_id kr = Except.ok k →
        k ∈ kr ∧ keyMatchesSource filesystem_id k = true) ∧
    (get_source_key_details filesystem_id kr = Except.error GpgError.keyNotFound ↔
        ∀ k ∈ kr, keyMatchesSource filesystem_id k = false) := by
  unfold get_source_key_details
  cases hf : kr.find? (keyMatchesSource filesystem_id) with
  | none =>
    have hall := List.find?_eq_none.mp hf
    refine ⟨fun k hk => by simp at hk, ?_⟩
    constructor
    · intro _ k hk
      have := hall k hk
      simpa using this
    · intro _
      rfl
  | some k0 =>
    refine ⟨fun k hk => ?_, ?_⟩
    · have hk0 : k = k0 := by
        simpa using hk.symm
      subst hk0
      exact ⟨List.mem_of_find?_eq_some hf, List.find?_some hf⟩
    · constructor
      · intro h
        simp at h
      · intro hall
        have h1 := hall k0 (List.mem_of_find?_eq_some hf)
        have h2 := List.find?_some hf
        rw [h1] at h2
        cases h2

theorem scan_matches_by_substring_and_pattern_witness :
    strayKey ∈ [strayKey] ∧ keyMatchesSource "ABC" strayKey = true :=
  (scan_matches_by_substring_and_pattern "ABC" [strayKey]).1 strayKey (by rfl)

/-- C8 counterexample: the journalist fingerprint "JF" is absent from the
(empty) engine keyring, yet construction completes successfully because a
stale fingerprint → public-key cache entry satisfies the startup check
before the engine is ever consulted. -/
theorem init_with_stale_cache_counterexample :
    encryption_manager_init "JF"
        { keyring := [], redisFingerprints := [],
          redisKeys := [("JF", "PUBKEY-JF")] }
      = InitOutcome.success
          { keyring := [], redisFingerprints := [],
            redisKeys := [("JF", "PUBKEY-JF")] } := rfl

/-- C8 amended: when the journalist fingerprint resolves neither from the
public-key cache (no truthy entry) nor from the engine keyring,
construction fails with the fatal configuration error
(`EnvironmentError`), not with `KeyNotFoundError`; with a cached public
key, construction can complete even though the key is absent from the
keyring. -/
theorem init_fails_when_key_unresolvable (journalist_key_fingerprint : String)
    (s : EncState)
    (hcache : truthy (hget s.redisKeys journalist_key_fingerprint) = false)
    (hkeyring : ∀ k ∈ s.keyring, k.fingerprint ≠ journalist_key_fingerprint) :
    encryption_manager_init journalist_key_fingerprint s
      = InitOutcome.environmentFailure journalist_key_fingerprint := by
  have hfind : s.keyring.find?
      (fun k => k.fingerprint = journalist_key_fingerprint) = none :=
    List.find?_eq_none.mpr (fun k hk => by simp [hkeyring k hk])
  have hgpg : get_public_key_from_gpg journalist_key_fingerprint s
      = (s, Except.error GpgError.keyNotFound) := by
    unfold get_public_key_from_gpg export_keys
    rw [hfind]
    simp
  have hpub : get_public_key journalist_key_fingerprint s
      = (s, Except.error GpgError.keyNotFound) := by
    unfold get_public_key
    cases hg : hget s.redisKeys journalist_key_fingerprint with
    | none => exact hgpg
    | some pk =>
      have hpk : pk = "" := by
        rw [hg] at hcache
        simpa [truthy] using hcache
      rw [hpk]
      simpa using hgpg
  unfold encryption_manager_init get_journalist_public_key
  rw [hpub]

theorem init_fails_when_key_unresolvable_witness :
    encryption_manager_init "JF"
        { keyring := [], redisFingerprints := [], redisKeys := [] }
      = InitOutcome.environmentFailure "JF" :=
  init_fails_when_key_unresolvable "JF"
    { keyring := [], redisFingerprints := [], redisKeys := [] }
    (by rfl) (by simp)

end SecureDropEnc
